import Mathlib

/-!
Verification of the daily-go client library (package daily) against its
specification. The development shallowly embeds the request dispatcher
(daily.go), the resource/request data model (models.go, requests.go) and the
JSON encoding semantics of the Go standard library as they apply to those
types, then settles the frozen claims as theorems.
-/

namespace Daily

/-! ### JSON value model

Models the JSON values produced and consumed by encoding/json for the types
of this repository. Numeric fields of the repository are all integers
(int, int32, int64), so numbers are modelled as `Int`. -/

/-- A JSON value. -/
inductive Json where
  | null
  | bool (b : Bool)
  | num (n : Int)
  | str (s : String)
  | arr (elems : List Json)
  | obj (fields : List (String × Json))

/-- First-match key lookup in a JSON object. The encoders in this file emit
each key at most once, so first-match agrees with the last-wins rule that
encoding/json applies to duplicate keys. -/
def lookupField : List (String × Json) → String → Option Json
  | [], _ => none
  | (k, v) :: rest, key => if k = key then some v else lookupField rest key

/-- Encoding of one struct field carrying the omitempty tag on a pointer:
a nil pointer (`none`) is omitted from the object entirely, a set pointer
emits the pointee under the field key. -/
def optField (key : String) (enc : α → Json) : Option α → List (String × Json)
  | none => []
  | some v => [(key, enc v)]

/-- Decoding a JSON value into a pointer-typed integer field, per
encoding/json: a missing key (`none`) leaves the pointer nil, `null` sets it
nil, a number allocates and sets the pointee, any other value is an
unmarshal type error. -/
def decodeOptIntVal : Option Json → Except String (Option Int)
  | none => .ok none
  | some Json.null => .ok none
  | some (Json.num n) => .ok (some n)
  | some _ => .error "json: cannot unmarshal value into pointer integer field"

/-- Decoding into a pointer-typed bool field (same shape as `decodeOptIntVal`). -/
def decodeOptBoolVal : Option Json → Except String (Option Bool)
  | none => .ok none
  | some Json.null => .ok none
  | some (Json.bool b) => .ok (some b)
  | some _ => .error "json: cannot unmarshal value into pointer bool field"

/-- Decoding into a pointer-typed string field (same shape as `decodeOptIntVal`). -/
def decodeOptStrVal : Option Json → Except String (Option String)
  | none => .ok none
  | some Json.null => .ok none
  | some (Json.str s) => .ok (some s)
  | some _ => .error "json: cannot unmarshal value into pointer string field"

/-- Decoding into a plain (non-pointer) string field, per encoding/json: a
missing key leaves the zero value "", `null` is a no-op on a string (the
field keeps its zero value), a string sets it, anything else is a type
error. -/
def decodeStrVal : Option Json → Except String String
  | none => .ok ""
  | some Json.null => .ok ""
  | some (Json.str s) => .ok s
  | some _ => .error "json: cannot unmarshal value into string field"

def decodeOptInt (fs : List (String × Json)) (key : String) : Except String (Option Int) :=
  decodeOptIntVal (lookupField fs key)

def decodeOptBool (fs : List (String × Json)) (key : String) : Except String (Option Bool) :=
  decodeOptBoolVal (lookupField fs key)

def decodeOptStr (fs : List (String × Json)) (key : String) : Except String (Option String) :=
  decodeOptStrVal (lookupField fs key)

def decodeStr (fs : List (String × Json)) (key : String) : Except String String :=
  decodeStrVal (lookupField fs key)

/-! ### RoomConfig (models.go lines 57-79)

Every field is a pointer with the omitempty tag; JSON keys follow the
struct tags. -/

/-- RoomConfig is the configuration for a room (models.go). A `none` field
models a nil pointer. int32 and int64 pointees are both modelled as `Int`. -/
structure RoomConfig where
  notBefore : Option Int
  expiresAt : Option Int
  startVideoOff : Option Bool
  startAudioOff : Option Bool
  maxParticipants : Option Int
  autoJoin : Option Bool
  enableKnocking : Option Bool
  enableScreenShare : Option Bool
  enableChat : Option Bool
  ownerOnlyBroadcast : Option Bool
  enableRecording : Option String
  ejectAtRoomExpiry : Option Bool
  ejectAfterElapsed : Option Int
  lang : Option String
  meetingJoinHook : Option String
  signalingType : Option String
  sfuSwitchover : Option Int
  enableMeshSFU : Option Bool
  enableTerseLogging : Option Bool
  enableHiddenParticipants : Option Bool
deriving DecidableEq

/-- The field list json.Marshal emits for a RoomConfig, in struct order,
with nil pointers omitted (omitempty on every field). -/
def roomConfigFields (c : RoomConfig) : List (String × Json) :=
  optField "nbf" Json.num c.notBefore ++
  optField "exp" Json.num c.expiresAt ++
  optField "start_video_off" Json.bool c.startVideoOff ++
  optField "start_audio_off" Json.bool c.startAudioOff ++
  optField "max_participants" Json.num c.maxParticipants ++
  optField "autojoin" Json.bool c.autoJoin ++
  optField "enable_knocking" Json.bool c.enableKnocking ++
  optField "enable_screenshare" Json.bool c.enableScreenShare ++
  optField "enable_chat" Json.bool c.enableChat ++
  optField "owner_only_broadcast" Json.bool c.ownerOnlyBroadcast ++
  optField "enable_recording" Json.str c.enableRecording ++
  optField "eject_at_room_exp" Json.bool c.ejectAtRoomExpiry ++
  optField "eject_after_elapsed" Json.num c.ejectAfterElapsed ++
  optField "lang" Json.str c.lang ++
  optField "meeting_join_hook" Json.str c.meetingJoinHook ++
  optField "signaling_impl" Json.str c.signalingType ++
  optField "sfu_switchover" Json.num c.sfuSwitchover ++
  optField "enable_mesh_sfu" Json.bool c.enableMeshSFU ++
  optField "enable_terse_logging" Json.bool c.enableTerseLogging ++
  optField "enable_hidden_participants" Json.bool c.enableHiddenParticipants

/-- json.Marshal of a RoomConfig value. -/
def encodeRoomConfig (c : RoomConfig) : Json :=
  Json.obj (roomConfigFields c)

/-- json.Unmarshal of an object body into a RoomConfig, field by field. -/
def decodeRoomConfigFields (fs : List (String × Json)) : Except String RoomConfig := do
  let nbf ← decodeOptInt fs "nbf"
  let expAt ← decodeOptInt fs "exp"
  let svo ← decodeOptBool fs "start_video_off"
  let sao ← decodeOptBool fs "start_audio_off"
  let mp ← decodeOptInt fs "max_participants"
  let aj ← decodeOptBool fs "autojoin"
  let ek ← decodeOptBool fs "enable_knocking"
  let ess ← decodeOptBool fs "enable_screenshare"
  let ec ← decodeOptBool fs "enable_chat"
  let oob ← decodeOptBool fs "owner_only_broadcast"
  let er ← decodeOptStr fs "enable_recording"
  let ere ← decodeOptBool fs "eject_at_room_exp"
  let eae ← decodeOptInt fs "eject_after_elapsed"
  let lg ← decodeOptStr fs "lang"
  let mjh ← decodeOptStr fs "meeting_join_hook"
  let st ← decodeOptStr fs "signaling_impl"
  let sfu ← decodeOptInt fs "sfu_switchover"
  let ems ← decodeOptBool fs "enable_mesh_sfu"
  let etl ← decodeOptBool fs "enable_terse_logging"
  let ehp ← decodeOptBool fs "enable_hidden_participants"
  pure ⟨nbf, expAt, svo, sao, mp, aj, ek, ess, ec, oob, er, ere, eae, lg, mjh, st, sfu, ems, etl, ehp⟩

/-- json.Unmarshal into a RoomConfig: only an object decodes; any other
JSON value is a type error. -/
def decodeRoomConfig : Json → Except String RoomConfig
  | Json.obj fs => decodeRoomConfigFields fs
  | _ => .error "json: cannot unmarshal value into RoomConfig"

/-! ### Go time values and the Timestamp helper (models.go lines 132-136)

A Go time.Time denotes an absolute instant (seconds and nanoseconds since
the Unix epoch) together with a display location, modelled here as a fixed
minute offset. The offset affects only textual formatting, never the
instant. -/

/-- A time.Time value: absolute instant plus display offset. -/
structure GoTime where
  sec : Int
  nsec : Nat
  offsetMin : Int
deriving DecidableEq

/-- Go time.Time.Unix: whole seconds since the Unix epoch of the absolute
instant. Sub-second precision is dropped and the display offset is ignored. -/
def GoTime.Unix (t : GoTime) : Int := t.sec

/-- Timestamp (models.go line 134): returns the Unix-seconds integer of the
given time, as the library sends it to the API. The source wraps the value
in a pointer via Int64; the pointee is modelled. -/
def Timestamp (t : GoTime) : Int := GoTime.Unix t

/-- Left-pad a decimal string with zeros to the given width. -/
def padZeros (width : Nat) (s : String) : String :=
  String.mk (List.replicate (width - s.length) '0') ++ s

/-- Civil date (year, month, day) from days since 1970-01-01, proleptic
Gregorian calendar. -/
def civilFromDays (z0 : Int) : Int × Nat × Nat :=
  let z := z0 + 719468
  let era := Int.fdiv z 146097
  let doe := (z - era * 146097).toNat
  let yoe := (doe - doe / 1460 + doe / 36524 - doe / 146096) / 365
  let y := (yoe : Int) + era * 400
  let doy := doe - (365 * yoe + yoe / 4 - yoe / 100)
  let mp := (5 * doy + 2) / 153
  let d := doy - (153 * mp + 2) / 5 + 1
  let m := if mp < 10 then mp + 3 else mp - 9
  (if m ≤ 2 then y + 1 else y, m, d)

/-- Fractional-second suffix of RFC 3339 Nano format: empty when zero,
otherwise a dot followed by the nanoseconds with trailing zeros removed. -/
def nanosFrac (nsec : Nat) : String :=
  if nsec = 0 then ""
  else "." ++ String.mk (((padZeros 9 (toString nsec)).toList.reverse.dropWhile
    (fun c => c = '0')).reverse)

/-- RFC 3339 Nano rendering of a time value, as time.Time.MarshalJSON emits
(fragment between the quotes). The instant is shifted by the display offset
and the matching zone suffix is appended. -/
def formatRFC3339 (t : GoTime) : String :=
  let locSec := t.sec + t.offsetMin * 60
  let days := Int.fdiv locSec 86400
  let sod := (Int.emod locSec 86400).toNat
  let ymd := civilFromDays days
  let zone :=
    if t.offsetMin = 0 then "Z"
    else (if t.offsetMin > 0 then "+" else "-") ++
      padZeros 2 (toString (t.offsetMin.natAbs / 60)) ++ ":" ++
      padZeros 2 (toString (t.offsetMin.natAbs % 60))
  padZeros 4 (toString ymd.1) ++ "-" ++ padZeros 2 (toString ymd.2.1) ++ "-" ++
    padZeros 2 (toString ymd.2.2) ++ "T" ++ padZeros 2 (toString (sod / 3600)) ++ ":" ++
    padZeros 2 (toString (sod / 60 % 60)) ++ ":" ++ padZeros 2 (toString (sod % 60)) ++
    nanosFrac t.nsec ++ zone

/-- json.Marshal of a time.Time: its RFC 3339 textual form as a JSON string. -/
def encodeGoTime (t : GoTime) : Json := Json.str (formatRFC3339 t)

/-! ### Room (models.go lines 24-32) and request types (requests.go) -/

/-- RoomPrivacy is a string enumeration (models.go line 35). -/
abbrev RoomPrivacy := String

def Public : RoomPrivacy := "public"

def Private : RoomPrivacy := "private"

def Org : RoomPrivacy := "org"

/-- Room (models.go lines 24-32). The config pointer may be nil. -/
structure Room where
  id : String
  name : String
  apiCreated : Bool
  privacy : RoomPrivacy
  url : String
  createdAt : GoTime
  config : Option RoomConfig

/-- The field list json.Marshal emits for a Room. No field carries
omitempty, so every key is always present; a nil config emits null, and
the created_at time emits its RFC 3339 string. -/
def roomFields (r : Room) : List (String × Json) :=
  [("id", Json.str r.id),
   ("name", Json.str r.name),
   ("api_created", Json.bool r.apiCreated),
   ("privacy", Json.str r.privacy),
   ("url", Json.str r.url),
   ("created_at", encodeGoTime r.createdAt),
   ("config", match r.config with
     | none => Json.null
     | some c => encodeRoomConfig c)]

/-- CreateRoomRequest (requests.go lines 20-24): name is a string pointer
with omitempty, privacy a plain string with omitempty, config a RoomConfig
pointer with omitempty under the key properties. -/
structure CreateRoomRequest where
  name : Option String
  privacy : RoomPrivacy
  config : Option RoomConfig
deriving DecidableEq

/-- The field list json.Marshal emits for a CreateRoomRequest. The plain
string privacy with omitempty is omitted exactly when it equals the zero
value "". -/
def createRoomRequestFields (r : CreateRoomRequest) : List (String × Json) :=
  optField "name" Json.str r.name ++
  (if r.privacy = "" then [] else [("privacy", Json.str r.privacy)]) ++
  optField "properties" encodeRoomConfig r.config

/-- json.Marshal of a CreateRoomRequest value. -/
def encodeCreateRoomRequest (r : CreateRoomRequest) : Json :=
  Json.obj (createRoomRequestFields r)

/-- Decoding into a pointer-typed RoomConfig field: missing or null leaves
nil, an object decodes recursively, anything else is a type error. -/
def decodeOptConfigVal : Option Json → Except String (Option RoomConfig)
  | none => .ok none
  | some Json.null => .ok none
  | some j =>
    match decodeRoomConfig j with
    | .ok c => .ok (some c)
    | .error e => .error e

/-- json.Unmarshal of an object body into a CreateRoomRequest. -/
def decodeCreateRoomRequestFields (fs : List (String × Json)) : Except String CreateRoomRequest := do
  let nm ← decodeOptStr fs "name"
  let pv ← decodeStr fs "privacy"
  let cfg ← decodeOptConfigVal (lookupField fs "properties")
  pure ⟨nm, pv, cfg⟩

/-- json.Unmarshal into a CreateRoomRequest: only an object decodes. -/
def decodeCreateRoomRequest : Json → Except String CreateRoomRequest
  | Json.obj fs => decodeCreateRoomRequestFields fs
  | _ => .error "json: cannot unmarshal value into CreateRoomRequest"

/-- ListRoomsRequest (requests.go lines 5-9): plain int32 and strings, all
with omitempty. -/
structure ListRoomsRequest where
  limit : Int
  endingBefore : String
  endingAfter : String
deriving DecidableEq

/-- The field list json.Marshal emits for a ListRoomsRequest: each plain
field with omitempty is omitted exactly when it holds its zero value. -/
def listRoomsRequestFields (r : ListRoomsRequest) : List (String × Json) :=
  (if r.limit = 0 then [] else [("limit", Json.num r.limit)]) ++
  (if r.endingBefore = "" then [] else [("ending_before", Json.str r.endingBefore)]) ++
  (if r.endingAfter = "" then [] else [("ending_after", Json.str r.endingAfter)])

/-! ### Error taxonomy and the request dispatcher (daily.go lines 176-241)

The Error struct and the category constants live in an errors file of the
repository that is not under src/; the construction sites in daily.go fix
the Error fields (Message, StatusCode, Details, RawDetails) and the spec
fixes the category names. -/

/-- Modelled from the spec: the category constants of the missing errors
file, named per the taxonomy table of section 4.2 (400 bad request, 401
unauthorized, 429 rate limited, 500 internal, other unexpected, decode
failure parse error). Only their distinctness and selection matter to the
claims. -/
def ErrBadRequest : String := "bad request"

def ErrUnauthorized : String := "unauthorized"

def ErrTooManyRequests : String := "rate limited"

def ErrInternal : String := "internal service error"

def ErrUnexpected : String := "unexpected"

def ErrParseError : String := "parse error"

/-- Modelled from the spec: the structured Error value of the missing
errors file, with the fields the construction sites in daily.go populate
(Message, StatusCode, Details, RawDetails). The detail payload shape is
service-defined, so it stays a type parameter. -/
structure Error (D : Type) where
  message : String
  statusCode : Nat
  details : Option D
  rawDetails : String
deriving DecidableEq

/-- An error value as the dispatcher returns it to the caller: either a
plain formatted string built with fmt.Errorf (daily.go lines 179, 187, 194,
200) or the structured Error (daily.go lines 224, 233). -/
inductive ReturnedError (D : Type) where
  | plain (msg : String)
  | structured (e : Error D)
deriving DecidableEq

/-- Discriminator: true exactly on the structured Error constructor. -/
def ReturnedError.isStructured : ReturnedError D → Bool
  | .plain _ => false
  | .structured _ => true

/-- An HTTP response as the dispatcher observes it: the status code and the
body text after ioutil.ReadAll (daily.go line 204; a read error there is
discarded by the source, so the observed text is the model input). -/
structure HttpResponse where
  statusCode : Nat
  body : String
deriving DecidableEq

/-- Status-to-category switch of daily.go lines 208-219. -/
def statusMessage (code : Nat) : String :=
  if code = 400 then ErrBadRequest
  else if code = 401 then ErrUnauthorized
  else if code = 429 then ErrTooManyRequests
  else if code = 500 then ErrInternal
  else ErrUnexpected

/-- Environment of one request call: the outcome of each effectful step of
daily.go request, in source order. parsePath is the url.Parse outcome (line
177); marshalData is none when data is nil (line 184) and otherwise the
json.Marshal outcome (line 185); buildRequest is the http.NewRequest
outcome (line 192); transport is the HTTPClient.Do outcome (line 198), its
body already read; parseDetails is json.Unmarshal into the ErrorDetails
shape (line 221, none on parse failure); decodeResult is json.Unmarshal
into the caller result shape (line 232). -/
structure RequestEnv (D α : Type) where
  parsePath : Except String Unit
  marshalData : Option (Except String String)
  buildRequest : Except String Unit
  transport : Except String HttpResponse
  parseDetails : String → Option D
  decodeResult : String → Except String α

/-- The dispatcher request (daily.go lines 176-241), as a function of its
step outcomes. The returned pair is the error value (none on success) and
the caller result sink after the call: the sink is written only by the
successful decode on the 200 path; every other path leaves it as supplied.
(On a failed 200-path decode Go may leave a partially written sink; no
claim observes the sink after a decode error, and the model returns it as
supplied there.) -/
def request (env : RequestEnv D α) (sink : α) : Option (ReturnedError D) × α :=
  match env.parsePath with
  | .error e => (some (.plain ("daily: failed to parse request path: " ++ e)), sink)
  | .ok _ =>
    match env.marshalData with
    | some (.error e) => (some (.plain ("daily: failed to parse request data: " ++ e)), sink)
    | _ =>
      match env.buildRequest with
      | .error e => (some (.plain ("daily: failed to build request: " ++ e)), sink)
      | .ok _ =>
        match env.transport with
        | .error e => (some (.plain ("daily: request failed: " ++ e)), sink)
        | .ok resp =>
          if resp.statusCode ≠ 200 then
            (some (.structured
              { message := statusMessage resp.statusCode
                statusCode := resp.statusCode
                details := env.parseDetails resp.body
                rawDetails := resp.body }), sink)
          else
            match env.decodeResult resp.body with
            | .ok v => (none, v)
            | .error e => (some (.structured
                { message := ErrParseError ++ ": " ++ e
                  statusCode := resp.statusCode
                  details := none
                  rawDetails := resp.body }), sink)

/-! ### Client facade: paths, query parameters, thin wrappers -/

/-- Relative path GetRoom supplies to the dispatcher (daily.go line 89):
plain string concatenation of the literal and the caller name. -/
def getRoomPath (name : String) : String := "rooms/" ++ name

/-- Relative path DeleteRoom supplies to the dispatcher (daily.go line 102). -/
def deleteRoomPath (name : String) : String := "rooms/" ++ name

/-- Relative path GetMeetingToken supplies to the dispatcher (daily.go line 114). -/
def getMeetingTokenPath (token : String) : String := "meeting-tokens/" ++ token

/-- Relative path DeleteRecording supplies to the dispatcher (daily.go line 158). -/
def deleteRecordingPath (recordingID : String) : String := "recordings/" ++ recordingID

/-- The path component url.Parse extracts from a relative reference:
everything before the first question mark (fragments do not occur in the
paths this client builds). -/
def pathPart (s : String) : String :=
  String.mk (s.toList.takeWhile (fun c => c ≠ '?'))

/-- The raw query url.Parse extracts from a relative reference: everything
after the first question mark. -/
def queryPart (s : String) : String :=
  String.mk ((s.toList.dropWhile (fun c => c ≠ '?')).drop 1)

/-- Follows the words of the spec, section 4.5: percent-path-safe-join the
identifier into the path. Characters significant to path or query structure
are percent-encoded before concatenation. Stated only to be compared with
the concatenation the source performs. -/
def pathEscapeChar (c : Char) : String :=
  if c = '/' then "%2F"
  else if c = '?' then "%3F"
  else if c = '#' then "%23"
  else if c = '%' then "%25"
  else String.singleton c

/-- Follows the words of the spec, section 4.5 (see pathEscapeChar). -/
def specPathSafeJoin (base ident : String) : String :=
  base ++ String.join (ident.toList.map pathEscapeChar)

/-- generateUrlWithQueryParams (daily.go lines 166-174): the first supplied
parameter is appended after a question mark, each further one after an
ampersand. -/
def generateUrlWithQueryParams (path : String) (params : List String) : String :=
  match params with
  | [] => path
  | p :: rest => rest.foldl (fun acc q => acc ++ "&" ++ q) (path ++ "?" ++ p)

/-- GetRecordingsParams (daily.go lines 117-122). -/
structure GetRecordingsParams where
  limit : Int
  endingBefore : String
  startingAfter : String
  roomName : String

/-- The parameter strings GetRecordings accumulates (daily.go lines
127-139), in source order. The ending_before and starting_after format
strings in the source carry a leading ampersand inside the parameter
itself. -/
def getRecordingsQueryParams (p : GetRecordingsParams) : List String :=
  (if p.limit > 0 then ["limit=" ++ toString p.limit] else []) ++
  (if p.endingBefore = "" then [] else ["&ending_before=" ++ p.endingBefore]) ++
  (if p.startingAfter = "" then [] else ["&starting_after=" ++ p.startingAfter]) ++
  (if p.roomName = "" then [] else ["room_name=" ++ p.roomName])

/-- The path GetRecordings supplies to the dispatcher (daily.go line 140). -/
def getRecordingsPath (p : GetRecordingsParams) : String :=
  generateUrlWithQueryParams "/v1/recordings" (getRecordingsQueryParams p)

/-- The method, path and encoded body a facade operation hands to the
dispatcher. -/
structure CallSpec where
  method : String
  path : String
  body : Option Json

/-- ListRooms (daily.go lines 72-78): a nil request pointer is replaced by
a pointer to a zero-valued ListRoomsRequest, then the request is dispatched
as GET rooms with the request marshalled as the body. -/
def listRoomsCall (req : Option ListRoomsRequest) : CallSpec :=
  let r := match req with
    | none => ({ limit := 0, endingBefore := "", endingAfter := "" } : ListRoomsRequest)
    | some r => r
  { method := "GET", path := "rooms", body := some (Json.obj (listRoomsRequestFields r)) }

/-- The result sink DeleteRecording allocates (daily.go line 157), a Go map
from strings to arbitrary JSON values. -/
def MapSink : Type := List (String × Json)

/-- json.Unmarshal into a destination that is not a pointer fails with
InvalidUnmarshalError for every input. DeleteRecording (daily.go line 158)
passes its map value itself, without the address operator the sibling
operations use, so its result decode takes this shape. -/
def unmarshalIntoNonPointerMap (_body : String) : Except String MapSink :=
  .error "json: Unmarshal(non-pointer map[string]interface \x7b\x7d)"

/-- DeleteRecording (daily.go lines 156-159) as a dispatcher call: the
steps before the transport succeeded (a transport response presupposes
them), the transport outcome is the argument, and the result decode is the
non-pointer unmarshal. -/
def deleteRecordingRequest (parseDetails : String → Option D)
    (transport : Except String HttpResponse) : Option (ReturnedError D) × MapSink :=
  request
    { parsePath := .ok ()
      marshalData := none
      buildRequest := .ok (),
      transport := transport
      parseDetails := parseDetails
      decodeResult := unmarshalIntoNonPointerMap } []

/-! ### Helper lemmas: object lookup against the emitted field lists -/

theorem lookupField_append (a b : List (String × Json)) (k : String) :
    lookupField (a ++ b) k =
      match lookupField a k with
      | some v => some v
      | none => lookupField b k := by
  induction a with
  | nil => simp [lookupField]
  | cons kv rest ih =>
    obtain ⟨k2, v⟩ := kv
    by_cases h : k2 = k
    · simp [lookupField, h]
    · simp [lookupField, h, ih]

theorem lookupField_optField_same (k : String) (enc : α → Json) (v : Option α) :
    lookupField (optField k enc v) k = v.map enc := by
  cases v <;> simp [optField, lookupField]

theorem lookupField_optField_ne {k1 k2 : String} (h : k2 ≠ k1) (enc : α → Json) (v : Option α) :
    lookupField (optField k2 enc v) k1 = none := by
  cases v <;> simp [optField, lookupField, h]

theorem lookupField_ifSingle_same {P : Prop} [Decidable P] (k : String) (v : Json) :
    lookupField (if P then [] else [(k, v)]) k = if P then none else some v := by
  split <;> simp [lookupField]

theorem lookupField_ifSingle_ne {P : Prop} [Decidable P] {k1 k2 : String} (h : k2 ≠ k1) (v : Json) :
    lookupField (if P then [] else [(k2, v)]) k1 = none := by
  split <;> simp [lookupField, h]

theorem Except.ok_bind {ε α β : Type} (x : α) (f : α → Except ε β) :
    (Except.ok x >>= f : Except ε β) = f x := rfl

/-! ### Per-field decode lemmas for RoomConfig -/

theorem rc_nbf (c : RoomConfig) : decodeOptInt (roomConfigFields c) "nbf" = .ok c.notBefore := by
  simp (disch := decide) only [decodeOptInt, roomConfigFields, lookupField_append,
    lookupField_optField_same, lookupField_optField_ne]
  cases c.notBefore <;> rfl

theorem rc_exp (c : RoomConfig) : decodeOptInt (roomConfigFields c) "exp" = .ok c.expiresAt := by
  simp (disch := decide) only [decodeOptInt, roomConfigFields, lookupField_append,
    lookupField_optField_same, lookupField_optField_ne]
  cases c.expiresAt <;> rfl

theorem rc_svo (c : RoomConfig) :
    decodeOptBool (roomConfigFields c) "start_video_off" = .ok c.startVideoOff := by
  simp (disch := decide) only [decodeOptBool, roomConfigFields, lookupField_append,
    lookupField_optField_same, lookupField_optField_ne]
  cases c.startVideoOff <;> rfl

theorem rc_sao (c : RoomConfig) :
    decodeOptBool (roomConfigFields c) "start_audio_off" = .ok c.startAudioOff := by
  simp (disch := decide) only [decodeOptBool, roomConfigFields, lookupField_append,
    lookupField_optField_same, lookupField_optField_ne]
  cases c.startAudioOff <;> rfl

theorem rc_mp (c : RoomConfig) :
    decodeOptInt (roomConfigFields c) "max_participants" = .ok c.maxParticipants := by
  simp (disch := decide) only [decodeOptInt, roomConfigFields, lookupField_append,
    lookupField_optField_same, lookupField_optField_ne]
  cases c.maxParticipants <;> rfl

theorem rc_aj (c : RoomConfig) :
    decodeOptBool (roomConfigFields c) "autojoin" = .ok c.autoJoin := by
  simp (disch := decide) only [decodeOptBool, roomConfigFields, lookupField_append,
    lookupField_optField_same, lookupField_optField_ne]
  cases c.autoJoin <;> rfl

theorem rc_ek (c : RoomConfig) :
    decodeOptBool (roomConfigFields c) "enable_knocking" = .ok c.enableKnocking := by
  simp (disch := decide) only [decodeOptBool, roomConfigFields, lookupField_append,
    lookupField_optField_same, lookupField_optField_ne]
  cases c.enableKnocking <;> rfl

theorem rc_ess (c : RoomConfig) :
    decodeOptBool (roomConfigFields c) "enable_screenshare" = .ok c.enableScreenShare := by
  simp (disch := decide) only [decodeOptBool, roomConfigFields, lookupField_append,
    lookupField_optField_same, lookupField_optField_ne]
  cases c.enableScreenShare <;> rfl

theorem rc_ec (c : RoomConfig) :
    decodeOptBool (roomConfigFields c) "enable_chat" = .ok c.enableChat := by
  simp (disch := decide) only [decodeOptBool, roomConfigFields, lookupField_append,
    lookupField_optField_same, lookupField_optField_ne]
  cases c.enableChat <;> rfl

theorem rc_oob (c : RoomConfig) :
    decodeOptBool (roomConfigFields c) "owner_only_broadcast" = .ok c.ownerOnlyBroadcast := by
  simp (disch := decide) only [decodeOptBool, roomConfigFields, lookupField_append,
    lookupField_optField_same, lookupField_optField_ne]
  cases c.ownerOnlyBroadcast <;> rfl

theorem rc_er (c : RoomConfig) :
    decodeOptStr (roomConfigFields c) "enable_recording" = .ok c.enableRecording := by
  simp (disch := decide) only [decodeOptStr, roomConfigFields, lookupField_append,
    lookupField_optField_same, lookupField_optField_ne]
  cases c.enableRecording <;> rfl

theorem rc_ere (c : RoomConfig) :
    decodeOptBool (roomConfigFields c) "eject_at_room_exp" = .ok c.ejectAtRoomExpiry := by
  simp (disch := decide) only [decodeOptBool, roomConfigFields, lookupField_append,
    lookupField_optField_same, lookupField_optField_ne]
  cases c.ejectAtRoomExpiry <;> rfl

theorem rc_eae (c : RoomConfig) :
    decodeOptInt (roomConfigFields c) "eject_after_elapsed" = .ok c.ejectAfterElapsed := by
  simp (disch := decide) only [decodeOptInt, roomConfigFields, lookupField_append,
    lookupField_optField_same, lookupField_optField_ne]
  cases c.ejectAfterElapsed <;> rfl

theorem rc_lang (c : RoomConfig) :
    decodeOptStr (roomConfigFields c) "lang" = .ok c.lang := by
  simp (disch := decide) only [decodeOptStr, roomConfigFields, lookupField_append,
    lookupField_optField_same, lookupField_optField_ne]
  cases c.lang <;> rfl

theorem rc_mjh (c : RoomConfig) :
    decodeOptStr (roomConfigFields c) "meeting_join_hook" = .ok c.meetingJoinHook := by
  simp (disch := decide) only [decodeOptStr, roomConfigFields, lookupField_append,
    lookupField_optField_same, lookupField_optField_ne]
  cases c.meetingJoinHook <;> rfl

theorem rc_st (c : RoomConfig) :
    decodeOptStr (roomConfigFields c) "signaling_impl" = .ok c.signalingType := by
  simp (disch := decide) only [decodeOptStr, roomConfigFields, lookupField_append,
    lookupField_optField_same, lookupField_optField_ne]
  cases c.signalingType <;> rfl

theorem rc_sfu (c : RoomConfig) :
    decodeOptInt (roomConfigFields c) "sfu_switchover" = .ok c.sfuSwitchover := by
  simp (disch := decide) only [decodeOptInt, roomConfigFields, lookupField_append,
    lookupField_optField_same, lookupField_optField_ne]
  cases c.sfuSwitchover <;> rfl

theorem rc_ems (c : RoomConfig) :
    decodeOptBool (roomConfigFields c) "enable_mesh_sfu" = .ok c.enableMeshSFU := by
  simp (disch := decide) only [decodeOptBool, roomConfigFields, lookupField_append,
    lookupField_optField_same, lookupField_optField_ne]
  cases c.enableMeshSFU <;> rfl

theorem rc_etl (c : RoomConfig) :
    decodeOptBool (roomConfigFields c) "enable_terse_logging" = .ok c.enableTerseLogging := by
  simp (disch := decide) only [decodeOptBool, roomConfigFields, lookupField_append,
    lookupField_optField_same, lookupField_optField_ne]
  cases c.enableTerseLogging <;> rfl

theorem rc_ehp (c : RoomConfig) :
    decodeOptBool (roomConfigFields c) "enable_hidden_participants" = .ok c.enableHiddenParticipants := by
  simp (disch := decide) only [decodeOptBool, roomConfigFields, lookupField_append,
    lookupField_optField_same, lookupField_optField_ne]
  cases c.enableHiddenParticipants <;> rfl

/-- Round trip for RoomConfig at the field-list level. -/
theorem decode_encode_roomConfigFields (c : RoomConfig) :
    decodeRoomConfigFields (roomConfigFields c) = .ok c := by
  simp only [decodeRoomConfigFields, rc_nbf, rc_exp, rc_svo, rc_sao, rc_mp, rc_aj,
    rc_ek, rc_ess, rc_ec, rc_oob, rc_er, rc_ere, rc_eae, rc_lang, rc_mjh, rc_st,
    rc_sfu, rc_ems, rc_etl, rc_ehp, Except.ok_bind]
  rfl

/-- Round trip for RoomConfig: json.Unmarshal inverts json.Marshal. -/
theorem decode_encode_roomConfig (c : RoomConfig) :
    decodeRoomConfig (encodeRoomConfig c) = .ok c := by
  simp only [encodeRoomConfig, decodeRoomConfig]
  exact decode_encode_roomConfigFields c

/-! ### Round trip for CreateRoomRequest -/

theorem crr_name (r : CreateRoomRequest) :
    decodeOptStr (createRoomRequestFields r) "name" = .ok r.name := by
  simp (disch := decide) only [decodeOptStr, createRoomRequestFields, lookupField_append,
    lookupField_optField_same, lookupField_optField_ne, lookupField_ifSingle_ne]
  cases r.name <;> rfl

theorem crr_privacy (r : CreateRoomRequest) :
    decodeStr (createRoomRequestFields r) "privacy" = .ok r.privacy := by
  simp (disch := decide) only [decodeStr, createRoomRequestFields, lookupField_append,
    lookupField_optField_same, lookupField_optField_ne, lookupField_ifSingle_same]
  cases r.name <;> by_cases h : r.privacy = "" <;> simp [h, decodeStrVal]

theorem crr_properties (r : CreateRoomRequest) :
    decodeOptConfigVal (lookupField (createRoomRequestFields r) "properties") = .ok r.config := by
  simp (disch := decide) only [createRoomRequestFields, lookupField_append,
    lookupField_optField_same, lookupField_optField_ne, lookupField_ifSingle_ne]
  cases r.config with
  | none => rfl
  | some c =>
    show decodeOptConfigVal (some (encodeRoomConfig c)) = Except.ok (some c)
    simp [encodeRoomConfig, decodeOptConfigVal, decodeRoomConfig, decode_encode_roomConfigFields]

/-- Round trip for CreateRoomRequest: json.Unmarshal inverts json.Marshal,
on the in-memory record. The privacy field, being a plain string, decodes
back to its value whether or not it was emitted. -/
theorem decode_encode_createRoomRequest (r : CreateRoomRequest) :
    decodeCreateRoomRequest (encodeCreateRoomRequest r) = .ok r := by
  simp only [encodeCreateRoomRequest, decodeCreateRoomRequest, decodeCreateRoomRequestFields,
    crr_name, crr_privacy, crr_properties, Except.ok_bind]
  rfl

/-! ### Helper lemmas: string and list facts for path structure -/

/-- Discriminator: true exactly on JSON numbers. -/
def Json.isNum : Json → Bool
  | .num _ => true
  | _ => false

theorem takeWhile_append_of_all {p : Char → Bool} {xs ys : List Char} (h : ∀ x ∈ xs, p x) :
    List.takeWhile p (xs ++ ys) = xs ++ List.takeWhile p ys := by
  induction xs with
  | nil => simp
  | cons a l ih =>
    have ha : p a := h a (List.mem_cons_self a l)
    simp only [List.cons_append, List.takeWhile_cons, ha, ite_true]
    rw [ih (fun x hx => h x (List.mem_cons_of_mem a hx))]

theorem dropWhile_append_of_all {p : Char → Bool} {xs ys : List Char} (h : ∀ x ∈ xs, p x) :
    List.dropWhile p (xs ++ ys) = List.dropWhile p ys := by
  induction xs with
  | nil => simp
  | cons a l ih =>
    have ha : p a := h a (List.mem_cons_self a l)
    simp only [List.cons_append, List.dropWhile_cons, ha, ite_true]
    exact ih (fun x hx => h x (List.mem_cons_of_mem a hx))

theorem String.mk_data_append (a b : String) : String.mk (a.data ++ b.data) = a ++ b := by
  cases a
  cases b
  rfl

/-! ### The claims -/

/-- C1: for every HTTP response with a status other than 200, the
dispatcher returns an error whose category is the status-determined one
(400 bad request, 401 unauthorized, 429 rate limited, 500 internal, any
other unexpected), whose status-code field equals the observed status, and
whose raw-body field is the body text unmodified; the caller result sink
is returned exactly as supplied on that path. -/
theorem request_non200_classified {D α : Type} (env : RequestEnv D α) (sink : α)
    (resp : HttpResponse)
    (hPath : env.parsePath = .ok ())
    (hMarshal : ∀ e, env.marshalData ≠ some (.error e))
    (hBuild : env.buildRequest = .ok ())
    (hTransport : env.transport = .ok resp)
    (hStatus : resp.statusCode ≠ 200) :
    request env sink = (some (.structured
      { message := statusMessage resp.statusCode
        statusCode := resp.statusCode
        details := env.parseDetails resp.body
        rawDetails := resp.body }), sink)
    ∧ (resp.statusCode = 400 → statusMessage resp.statusCode = ErrBadRequest)
    ∧ (resp.statusCode = 401 → statusMessage resp.statusCode = ErrUnauthorized)
    ∧ (resp.statusCode = 429 → statusMessage resp.statusCode = ErrTooManyRequests)
    ∧ (resp.statusCode = 500 → statusMessage resp.statusCode = ErrInternal)
    ∧ (resp.statusCode ≠ 400 → resp.statusCode ≠ 401 → resp.statusCode ≠ 429 →
        resp.statusCode ≠ 500 → statusMessage resp.statusCode = ErrUnexpected) := by
  obtain ⟨pp, md, br, tr, pd, dr⟩ := env
  simp only at hPath hMarshal hBuild hTransport
  subst hPath
  subst hBuild
  subst hTransport
  refine ⟨?_, ?_, ?_, ?_, ?_, ?_⟩
  · cases md with
    | none => simp [request, hStatus]
    | some x =>
      cases x with
      | ok s => simp [request, hStatus]
      | error e => exact absurd rfl (hMarshal e)
  · intro h
    simp [statusMessage, h]
  · intro h
    simp [statusMessage, h]
  · intro h
    simp [statusMessage, h]
  · intro h
    simp [statusMessage, h]
  · intro h1 h2 h3 h4
    simp [statusMessage, h1, h2, h3, h4]

/-- Witness for C1 at status 400 with body "oops". -/
theorem request_non200_classified_witness :
    request (D := Unit) (α := Nat)
      { parsePath := .ok (), marshalData := none, buildRequest := .ok (),
        transport := .ok ⟨400, "oops"⟩,
        parseDetails := fun _ => none,
        decodeResult := fun _ => .error "nope" } 0 =
      (some (.structured
        { message := ErrBadRequest, statusCode := 400,
          details := none, rawDetails := "oops" }), 0) := by
  have h := request_non200_classified (D := Unit) (α := Nat)
    { parsePath := .ok (), marshalData := none, buildRequest := .ok (),
      transport := .ok ⟨400, "oops"⟩,
      parseDetails := fun _ => none,
      decodeResult := fun _ => .error "nope" } 0 ⟨400, "oops"⟩
    rfl (fun _ hh => nomatch hh) rfl rfl (by decide)
  simpa [statusMessage, ErrBadRequest] using h.1

/-- C2: for every response with status 200 whose body fails to decode into
the caller result shape, the dispatcher returns a parse-error-category
error that carries the success status code and the raw body text, rather
than returning success. -/
theorem request_200_decode_error {D α : Type} (env : RequestEnv D α) (sink : α)
    (resp : HttpResponse) (msg : String)
    (hPath : env.parsePath = .ok ())
    (hMarshal : ∀ e, env.marshalData ≠ some (.error e))
    (hBuild : env.buildRequest = .ok ())
    (hTransport : env.transport = .ok resp)
    (hStatus : resp.statusCode = 200)
    (hDecode : env.decodeResult resp.body = .error msg) :
    request env sink = (some (.structured
      { message := ErrParseError ++ ": " ++ msg
        statusCode := 200
        details := none
        rawDetails := resp.body }), sink) := by
  obtain ⟨pp, md, br, tr, pd, dr⟩ := env
  simp only at hPath hMarshal hBuild hTransport hDecode
  subst hPath
  subst hBuild
  subst hTransport
  cases md with
  | none => simp [request, hStatus, hDecode]
  | some x =>
    cases x with
    | ok s => simp [request, hStatus, hDecode]
    | error e => exact absurd rfl (hMarshal e)

/-- Witness for C2 at status 200 with an undecodable body. -/
theorem request_200_decode_error_witness :
    request (D := Unit) (α := Nat)
      { parsePath := .ok (), marshalData := none, buildRequest := .ok (),
        transport := .ok ⟨200, "not json"⟩,
        parseDetails := fun _ => none,
        decodeResult := fun _ => .error "bad shape" } 0 =
      (some (.structured
        { message := ErrParseError ++ ": " ++ "bad shape",
          statusCode := 200, details := none, rawDetails := "not json" }), 0) := by
  exact request_200_decode_error (D := Unit) (α := Nat)
    { parsePath := .ok (), marshalData := none, buildRequest := .ok (),
      transport := .ok ⟨200, "not json"⟩,
      parseDetails := fun _ => none,
      decodeResult := fun _ => .error "bad shape" } 0 ⟨200, "not json"⟩ "bad shape"
    rfl (fun _ hh => nomatch hh) rfl rfl rfl rfl

/-- C6: for every non-success response whose body does not parse into the
structured detail shape, the dispatcher still returns the
status-categorized error carrying the raw body text and a nil detail; the
detail-parse failure never changes the outcome into a different error. -/
theorem request_non200_nil_details {D α : Type} (env : RequestEnv D α) (sink : α)
    (resp : HttpResponse)
    (hPath : env.parsePath = .ok ())
    (hMarshal : ∀ e, env.marshalData ≠ some (.error e))
    (hBuild : env.buildRequest = .ok ())
    (hTransport : env.transport = .ok resp)
    (hStatus : resp.statusCode ≠ 200)
    (hDetails : env.parseDetails resp.body = none) :
    request env sink = (some (.structured
      { message := statusMessage resp.statusCode
        statusCode := resp.statusCode
        details := none
        rawDetails := resp.body }), sink) := by
  obtain ⟨pp, md, br, tr, pd, dr⟩ := env
  simp only at hPath hMarshal hBuild hTransport hDetails
  subst hPath
  subst hBuild
  subst hTransport
  cases md with
  | none => simp [request, hStatus, hDetails]
  | some x =>
    cases x with
    | ok s => simp [request, hStatus, hDetails]
    | error e => exact absurd rfl (hMarshal e)

/-- Witness for C6 at status 500 with a body the detail shape rejects. -/
theorem request_non200_nil_details_witness :
    request (D := Unit) (α := Nat)
      { parsePath := .ok (), marshalData := none, buildRequest := .ok (),
        transport := .ok ⟨500, "<html>down</html>"⟩,
        parseDetails := fun _ => none,
        decodeResult := fun _ => .error "x" } 0 =
      (some (.structured
        { message := ErrInternal, statusCode := 500,
          details := none, rawDetails := "<html>down</html>" }), 0) := by
  have h := request_non200_nil_details (D := Unit) (α := Nat)
    { parsePath := .ok (), marshalData := none, buildRequest := .ok (),
      transport := .ok ⟨500, "<html>down</html>"⟩,
      parseDetails := fun _ => none,
      decodeResult := fun _ => .error "x" } 0 ⟨500, "<html>down</html>"⟩
    rfl (fun _ hh => nomatch hh) rfl rfl (by decide) rfl
  simpa [statusMessage, ErrInternal] using h

/-- C5 counterexample: a transport failure (daily.go line 200) is returned
as a plain formatted string error, not as the structured Error value; it
carries no category field, no status code, no detail and no raw body,
refuting the claim that every category reaches the caller as a structured
error value with those fields. -/
theorem transport_error_not_structured :
    (request (D := Unit) (α := Nat)
      { parsePath := .ok (), marshalData := none, buildRequest := .ok (),
        transport := .error "connection refused",
        parseDetails := fun _ => none,
        decodeResult := fun _ => .error "x" } 0).1 =
      some (.plain "daily: request failed: connection refused")
    ∧ ReturnedError.isStructured (D := Unit)
        (.plain "daily: request failed: connection refused") = false :=
  ⟨rfl, rfl⟩

/-- C5 as amended: HTTP-status errors and response-decode errors are
returned as the structured Error value carrying category, status,
best-effort detail and raw body; path-parse, request-encoding,
request-build and transport failures are returned as plain formatted
string errors whose message names the failure, with nothing sent and the
sink untouched. -/
theorem request_error_surface {D α : Type} (env : RequestEnv D α) (sink : α) :
    (∀ e, env.parsePath = .error e →
      request env sink = (some (.plain ("daily: failed to parse request path: " ++ e)), sink))
    ∧ (∀ e, env.parsePath = .ok () → env.marshalData = some (.error e) →
      request env sink = (some (.plain ("daily: failed to parse request data: " ++ e)), sink))
    ∧ (∀ e, env.parsePath = .ok () → (∀ e2, env.marshalData ≠ some (.error e2)) →
      env.buildRequest = .error e →
      request env sink = (some (.plain ("daily: failed to build request: " ++ e)), sink))
    ∧ (∀ e, env.parsePath = .ok () → (∀ e2, env.marshalData ≠ some (.error e2)) →
      env.buildRequest = .ok () → env.transport = .error e →
      request env sink = (some (.plain ("daily: request failed: " ++ e)), sink))
    ∧ (∀ resp, env.parsePath = .ok () → (∀ e2, env.marshalData ≠ some (.error e2)) →
      env.buildRequest = .ok () → env.transport = .ok resp → resp.statusCode ≠ 200 →
      request env sink = (some (.structured
        { message := statusMessage resp.statusCode
          statusCode := resp.statusCode
          details := env.parseDetails resp.body
          rawDetails := resp.body }), sink))
    ∧ (∀ resp msg, env.parsePath = .ok () → (∀ e2, env.marshalData ≠ some (.error e2)) →
      env.buildRequest = .ok () → env.transport = .ok resp → resp.statusCode = 200 →
      env.decodeResult resp.body = .error msg →
      request env sink = (some (.structured
        { message := ErrParseError ++ ": " ++ msg
          statusCode := resp.statusCode
          details := none
          rawDetails := resp.body }), sink)) := by
  obtain ⟨pp, md, br, tr, pd, dr⟩ := env
  simp only
  refine ⟨?_, ?_, ?_, ?_, ?_, ?_⟩
  · intro e he
    subst he
    rfl
  · intro e hp hm
    subst hp
    subst hm
    rfl
  · intro e hp hm hb
    subst hp
    subst hb
    cases md with
    | none => rfl
    | some x =>
      cases x with
      | ok s => rfl
      | error e2 => exact absurd rfl (hm e2)
  · intro e hp hm hb ht
    subst hp
    subst hb
    subst ht
    cases md with
    | none => rfl
    | some x =>
      cases x with
      | ok s => rfl
      | error e2 => exact absurd rfl (hm e2)
  · intro resp hp hm hb ht hs
    subst hp
    subst hb
    subst ht
    cases md with
    | none => simp [request, hs]
    | some x =>
      cases x with
      | ok s => simp [request, hs]
      | error e2 => exact absurd rfl (hm e2)
  · intro resp msg hp hm hb ht hs hd
    subst hp
    subst hb
    subst ht
    cases md with
    | none => simp [request, hs, hd]
    | some x =>
      cases x with
      | ok s => simp [request, hs, hd]
      | error e2 => exact absurd rfl (hm e2)

/-- Witness for C5 as amended, at a concrete transport failure. -/
theorem request_error_surface_witness :
    request (D := Unit) (α := Nat)
      { parsePath := .ok (), marshalData := none, buildRequest := .ok (),
        transport := .error "refused",
        parseDetails := fun _ => none,
        decodeResult := fun _ => .error "x" } 0 =
      (some (.plain "daily: request failed: refused"), 0) := by
  have h := request_error_surface (D := Unit) (α := Nat)
    { parsePath := .ok (), marshalData := none, buildRequest := .ok (),
      transport := .error "refused",
      parseDetails := fun _ => none,
      decodeResult := fun _ => .error "x" } 0
  exact h.2.2.2.1 "refused" rfl (fun _ hh => nomatch hh) rfl rfl

/-- C3 counterexample: CreateRoomRequest carries privacy as a plain
string with omitempty (requests.go line 22), so a privacy explicitly set
to the zero value "" is omitted from the serialized object entirely — its
key is absent, exactly as for an unset field — while a nonzero privacy
emits the key. A field set to its zero value therefore does not round-trip
as set-to-zero distinguishable from absent. -/
theorem createRoom_privacy_zero_conflated_with_absent :
    lookupField (createRoomRequestFields ⟨some "x", "", none⟩) "privacy" = none
    ∧ lookupField (createRoomRequestFields ⟨some "x", Public, none⟩) "privacy" =
        some (Json.str "public") :=
  ⟨rfl, rfl⟩

/-- C3 as amended: encoding then decoding round-trips exactly for
RoomConfig and CreateRoomRequest — unset (nil) pointer fields come back
unset, set fields come back with equal values, and a pointer field set to
its zero value stays on the wire (key present) while an unset one is
omitted; but the non-pointer privacy field of CreateRoomRequest conflates
the zero value "" with absence (see the counterexample). -/
theorem record_omission_roundtrip (c : RoomConfig) (r : CreateRoomRequest) :
    decodeRoomConfig (encodeRoomConfig c) = .ok c
    ∧ decodeCreateRoomRequest (encodeCreateRoomRequest r) = .ok r
    ∧ lookupField (roomConfigFields { c with startVideoOff := some false }) "start_video_off" =
        some (Json.bool false)
    ∧ lookupField (roomConfigFields { c with startVideoOff := none }) "start_video_off" = none := by
  refine ⟨decode_encode_roomConfig c, decode_encode_createRoomRequest r, ?_, ?_⟩
  · simp (disch := decide) only [roomConfigFields, lookupField_append,
      lookupField_optField_same, lookupField_optField_ne]
    rfl
  · simp (disch := decide) only [roomConfigFields, lookupField_append,
      lookupField_optField_same, lookupField_optField_ne]
    rfl

/-- C4: evaluation of the query-parameter builder at the failing input.
With only ending_before set, GetRecordings (daily.go line 132) prepends a
stray ampersand inside the parameter itself, so the path becomes
recordings?&ending_before=a — the first pair is prefixed by an ampersand
right after the question mark, against the claim. The second conjunct
shows the claim holds at its own cited instance (limit and room_name). -/
theorem getRecordings_stray_ampersand :
    getRecordingsPath ⟨0, "a", "", ""⟩ = "/v1/recordings?&ending_before=a"
    ∧ getRecordingsPath ⟨10, "", "", "x"⟩ = "/v1/recordings?limit=10&room_name=x" :=
  ⟨rfl, rfl⟩

/-- C7 counterexample: GetRoom joins the identifier by plain string
concatenation (daily.go line 89), with no percent-escaping, so it differs
from the percent-path-safe join the claim requires; an identifier holding
a question mark leaks into the query, truncating the path url.Parse sees. -/
theorem identifier_join_unescaped :
    getRoomPath "a/b" = "rooms/a/b"
    ∧ specPathSafeJoin "rooms/" "a/b" = "rooms/a%2Fb"
    ∧ getRoomPath "a/b" ≠ specPathSafeJoin "rooms/" "a/b"
    ∧ pathPart (getRoomPath "a?x=1") = "rooms/a"
    ∧ queryPart (getRoomPath "a?x=1") = "x=1" := by
  refine ⟨rfl, rfl, by decide, rfl, rfl⟩

/-- C7 as amended: identifier-bearing operations join the identifier into
the relative path by plain string concatenation with no escaping, so
path- and query-significant characters in the identifier do alter the
request path structure: a question mark in the identifier truncates the
path and injects the remainder as the query string. -/
theorem identifier_plain_concatenation (name token q : String)
    (h : ('?' : Char) ∉ name.toList) :
    getRoomPath name = "rooms/" ++ name
    ∧ deleteRoomPath name = "rooms/" ++ name
    ∧ getMeetingTokenPath token = "meeting-tokens/" ++ token
    ∧ pathPart (getRoomPath (name ++ "?" ++ q)) = "rooms/" ++ name
    ∧ queryPart (getRoomPath (name ++ "?" ++ q)) = q := by
  have hpre : ∀ x ∈ ("rooms/" : String).data, (fun c => c ≠ '?' : Char → Bool) x := by decide
  have hall : ∀ x ∈ ("rooms/" ++ name).data, (fun c => c ≠ '?' : Char → Bool) x := by
    intro x hx
    rw [String.data_append] at hx
    rcases List.mem_append.mp hx with hx1 | hx2
    · exact hpre x hx1
    · simp only [decide_eq_true_eq]
      intro hcontr
      exact h (hcontr ▸ hx2)
  have hdata : (getRoomPath (name ++ "?" ++ q)).toList
      = ("rooms/" ++ name).data ++ ('?' :: q.data) := by
    show ("rooms/" ++ (name ++ "?" ++ q)).data = ("rooms/" ++ name).data ++ ('?' :: q.data)
    simp only [String.data_append, List.append_assoc]
    rfl
  refine ⟨rfl, rfl, rfl, ?_, ?_⟩
  · show String.mk ((getRoomPath (name ++ "?" ++ q)).toList.takeWhile (fun c => c ≠ '?'))
      = "rooms/" ++ name
    rw [hdata, takeWhile_append_of_all hall]
    show String.mk (("rooms/" ++ name).data ++ []) = "rooms/" ++ name
    rw [List.append_nil]
  · show String.mk (((getRoomPath (name ++ "?" ++ q)).toList.dropWhile (fun c => c ≠ '?')).drop 1)
      = q
    rw [hdata, dropWhile_append_of_all hall]
    show String.mk q.data = q
    rfl

/-- Witness for C7 as amended, at identifier "a" and injected query "x=1". -/
theorem identifier_plain_concatenation_witness :
    getRoomPath "a" = "rooms/" ++ "a"
    ∧ deleteRoomPath "a" = "rooms/" ++ "a"
    ∧ getMeetingTokenPath "t" = "meeting-tokens/" ++ "t"
    ∧ pathPart (getRoomPath ("a" ++ "?" ++ "x=1")) = "rooms/" ++ "a"
    ∧ queryPart (getRoomPath ("a" ++ "?" ++ "x=1")) = "x=1" :=
  identifier_plain_concatenation "a" "t" "x=1" (by decide)

/-- C8 counterexample: the created_at field of Room is a time.Time
(models.go line 30), which json.Marshal emits as its RFC 3339 textual form
— a JSON string, not an integer of Unix seconds — refuting the claim that
every time-bearing field of every resource type is transmitted as integer
seconds since the epoch. Evaluated at the instant 1609459200 (2021-01-01
UTC). -/
theorem room_created_at_textual :
    lookupField (roomFields
      { id := "r1", name := "main", apiCreated := true, privacy := Public,
        url := "https://x.daily.co/main", createdAt := ⟨1609459200, 0, 0⟩,
        config := none }) "created_at" = some (Json.str "2021-01-01T00:00:00Z")
    ∧ Json.isNum (Json.str "2021-01-01T00:00:00Z") = false :=
  ⟨rfl, rfl⟩

/-- C8 as amended: the optional time-bearing config fields are transmitted
as integer Unix seconds (nbf and exp of RoomConfig emit the stored integer
unchanged), and the Timestamp helper maps a time value to exactly its
Unix-seconds integer — dropping sub-second precision, unaffected by the
display offset — but the created_at field of Room is transmitted in the
time type textual RFC 3339 encoding, not as integer seconds. -/
theorem timestamp_unix_seconds (s o : Int) (n : Nat) (c : RoomConfig) (x y : Int) :
    Timestamp ⟨s, n, o⟩ = s
    ∧ lookupField (roomConfigFields { c with notBefore := some x }) "nbf" = some (Json.num x)
    ∧ lookupField (roomConfigFields { c with notBefore := some x, expiresAt := some y }) "exp" =
        some (Json.num y) := by
  refine ⟨rfl, ?_, ?_⟩
  · simp (disch := decide) only [roomConfigFields, lookupField_append,
      lookupField_optField_same, lookupField_optField_ne]
    rfl
  · simp (disch := decide) only [roomConfigFields, lookupField_append,
      lookupField_optField_same, lookupField_optField_ne]
    rfl

/-- C9: DeleteRecording passes its map result sink by value, not by
address (daily.go line 158), and json.Unmarshal into a non-pointer
destination fails for every input, so whenever the transport returns
status 200 the operation returns a parse-error-category error carrying
status 200, regardless of the response body content. -/
theorem deleteRecording_200_parse_error {D : Type} (pd : String → Option D) (body : String) :
    (deleteRecordingRequest pd (.ok ⟨200, body⟩)).1 =
      some (.structured
        { message :=
            ErrParseError ++ ": json: Unmarshal(non-pointer map[string]interface \x7b\x7d)"
          statusCode := 200
          details := none
          rawDetails := body }) :=
  rfl

/-- C10: ListRooms called with a nil request pointer replaces it by a
zero-valued ListRoomsRequest before dispatch (daily.go lines 73-75), so
the dispatched call coincides with the one for an explicit empty request:
GET rooms with the marshalled empty request (all fields omitempty at their
zero values) as the body. -/
theorem listRooms_nil_request_default :
    listRoomsCall none = listRoomsCall (some { limit := 0, endingBefore := "", endingAfter := "" })
    ∧ (listRoomsCall none).method = "GET"
    ∧ (listRoomsCall none).path = "rooms"
    ∧ (listRoomsCall none).body = some (Json.obj []) :=
  ⟨rfl, rfl, rfl, rfl⟩

end Daily
